import Mathlib

/-!
Verification of the `diffxl` workbook-comparison engine (diffxl.py).

The Python source is shallowly embedded below.  Workbooks, worksheets,
merged ranges and cells are modelled as immutable data; the cell-type
tag constants are the ones the script imports from `openpyxl.cell.cell`
(`TYPE_NULL` and `TYPE_NUMERIC` are both the one-character string "n"
in openpyxl, a fact the embedding keeps).  Cell values are the Python
values openpyxl yields for the value kinds exercised here (`None`,
`str`, `int`, `bool`), rendered by Python's `str`.
-/

namespace Diffxl

/-- Tag constants from `openpyxl.cell.cell`. -/
def TYPE_STRING : String := "s"

def TYPE_FORMULA : String := "f"

def TYPE_NUMERIC : String := "n"

def TYPE_BOOL : String := "b"

def TYPE_NULL : String := "n"

def TYPE_ERROR : String := "e"

def TYPE_FORMULA_CACHE_STRING : String := "str"

/-- A raw Python cell value as loaded by openpyxl. -/
inductive CellValue where
  | pyNone
  | pyStr (s : String)
  | pyInt (n : Int)
  | pyBool (b : Bool)
deriving DecidableEq, Repr

/-- Python's `str` applied to a cell value. -/
def strValue : CellValue → String
  | .pyNone => "None"
  | .pyStr s => s
  | .pyInt n => toString n
  | .pyBool b => if b then "True" else "False"

/-- A loaded cell: its raw value and its openpyxl `data_type` tag. -/
structure Cell where
  value : CellValue
  data_type : String
deriving DecidableEq, Repr

/-- The cell `Worksheet.cell` materialises for an unpopulated coordinate:
value `None`, `data_type` "n". -/
def EMPTY_CELL : Cell := ⟨CellValue.pyNone, TYPE_NULL⟩

/-- A merged cell range `min_row:min_col .. max_row:max_col` (inclusive). -/
structure CellRange where
  min_row : Nat
  min_col : Nat
  max_row : Nat
  max_col : Nat
deriving DecidableEq, Repr

/-- `cell.coordinate in merged_range` (openpyxl `CellRange.__contains__`). -/
def CellRange.containsCoord (r : CellRange) (row col : Nat) : Bool :=
  decide (r.min_row ≤ row) && decide (row ≤ r.max_row) &&
    decide (r.min_col ≤ col) && decide (col ≤ r.max_col)

/-- `for merged_cell in merged_range`: the coordinates of the range,
row-major (openpyxl `CellRange.cells`). -/
def CellRange.coords (r : CellRange) : List (Nat × Nat) :=
  (List.range' r.min_row (r.max_row + 1 - r.min_row)).flatMap fun row =>
    (List.range' r.min_col (r.max_col + 1 - r.min_col)).map fun col => (row, col)

/-- A loaded worksheet.  `cells` holds the populated cells keyed by
(row, column), 1-indexed; `hidden_rows` / `hidden_cols` are the rows and
columns whose dimension object has `hidden = True`. -/
structure Worksheet where
  title : String
  sheet_state : String
  cells : List ((Nat × Nat) × Cell)
  merged_ranges : List CellRange
  hidden_rows : List Nat
  hidden_cols : List Nat

/-- `worksheet.cell(row, col)`: the populated cell, or an empty cell
(value `None`, type "n") for an unpopulated coordinate. -/
def Worksheet.cell (ws : Worksheet) (row col : Nat) : Cell :=
  match ws.cells.find? (fun e => decide (e.1 = (row, col))) with
  | some e => e.2
  | none => EMPTY_CELL

/-- `worksheet.max_row`: greatest populated row, at least 1. -/
def Worksheet.max_row (ws : Worksheet) : Nat :=
  ws.cells.foldl (fun a e => max a e.1.1) 1

/-- `worksheet.max_column`: greatest populated column, at least 1. -/
def Worksheet.max_column (ws : Worksheet) : Nat :=
  ws.cells.foldl (fun a e => max a e.1.2) 1

/-- `is_worksheet_hidden` (diffxl.py): sheet state is hidden/veryHidden. -/
def is_worksheet_hidden (ws : Worksheet) : Bool :=
  ["hidden", "veryHidden"].contains ws.sheet_state

/-- `is_cell_hidden` (diffxl.py): find the first merged range containing
the coordinate; if one exists, the cell is hidden iff some coordinate of
that range sits on a hidden column or hidden row; otherwise not hidden. -/
def is_cell_hidden (ws : Worksheet) (row col : Nat) : Bool :=
  match ws.merged_ranges.find? (fun r => r.containsCoord row col) with
  | some mr =>
      mr.coords.any fun rc =>
        ws.hidden_cols.contains rc.2 || ws.hidden_rows.contains rc.1
  | none => false

/-- openpyxl `get_column_letter`, written with structural fuel
(`(n - 1) / 26 < n`, so fuel `n` always suffices). -/
def get_column_letter_aux : Nat → Nat → String
  | 0, _ => ""
  | _ + 1, 0 => ""
  | fuel + 1, n + 1 =>
      get_column_letter_aux fuel (n / 26) ++
        String.singleton (Char.ofNat (65 + n % 26))

/-- Bijective base-26 column letter: 1 ↦ "A", 26 ↦ "Z", 27 ↦ "AA". -/
def get_column_letter (n : Nat) : String := get_column_letter_aux n n

/-- The value the comparison loop computes for one side of one coordinate:
`str(cell.value)`, blanked when the cell is hidden, blanked when the
cell's `data_type` is one of TYPE_NULL/TYPE_ERROR/TYPE_FORMULA/
TYPE_FORMULA_CACHE_STRING. -/
def normalizedValue (ws : Worksheet) (row col : Nat) : String :=
  let c := ws.cell row col
  let v := strValue c.value
  let v := if is_cell_hidden ws row col then "" else v
  if [TYPE_NULL, TYPE_ERROR, TYPE_FORMULA, TYPE_FORMULA_CACHE_STRING].contains
      c.data_type then "" else v

/-- One row of the differences table (the dict appended in diffxl.py). -/
structure DifferenceRecord where
  worksheet_name : String
  cell_address : String
  value1 : String
  value2 : String
deriving DecidableEq, Repr

/-- Body of the inner comparison loop at one coordinate: a record when
the two normalized values differ, nothing otherwise. -/
def diffCell (ws1 ws2 : Worksheet) (row col : Nat) : Option DifferenceRecord :=
  let value1 := normalizedValue ws1 row col
  let value2 := normalizedValue ws2 row col
  if value1 ≠ value2 then
    some ⟨ws1.title, get_column_letter col ++ toString row, value1, value2⟩
  else none

/-- The grid walk for one matched sheet pair: rows 1..max(max_row),
columns 1..max(max_column), row-major. -/
def diffSheets (ws1 ws2 : Worksheet) : List DifferenceRecord :=
  (List.range' 1 (max ws1.max_row ws2.max_row)).flatMap fun row =>
    (List.range' 1 (max ws1.max_column ws2.max_column)).filterMap fun col =>
      diffCell ws1 ws2 row col

/-- A workbook: its sheets in declared order (names assumed unique, as
openpyxl enforces). -/
structure Workbook where
  sheets : List Worksheet

/-- `workbook.sheetnames`. -/
def Workbook.sheetnames (wb : Workbook) : List String :=
  wb.sheets.map (fun ws => ws.title)

/-- The per-target sheet loop of diffxl.py: iterate workbook1's sheets in
order, skip names absent from workbook2, skip pairs hidden on either
side, and concatenate the grid diffs. -/
def diffWorkbooks (wb1 wb2 : Workbook) : List DifferenceRecord :=
  wb1.sheets.flatMap fun ws1 =>
    if wb2.sheetnames.contains ws1.title then
      match wb2.sheets.find? (fun ws => ws.title == ws1.title) with
      | some ws2 =>
          if is_worksheet_hidden ws1 then []
          else if is_worksheet_hidden ws2 then []
          else diffSheets ws1 ws2
      | none => []
    else []

/-- The target loop of diffxl.py, over the pre-expanded target list:
each target is compared independently against the base workbook. -/
def runTargets (wb1 : Workbook) (targets : List Workbook) :
    List (List DifferenceRecord) :=
  targets.map fun wb2 => diffWorkbooks wb1 wb2

/-- The output workbook diffxl.py saves for one target: its file name,
its single sheet's title, and that sheet's rows (row i, columns 1..4). -/
structure DiffArtifact where
  filename : String
  sheetTitle : String
  rows : List (List String)
deriving DecidableEq, Repr

/-- The report step of diffxl.py: nothing is saved when there are no
differences; otherwise a workbook named `diff_<stem1>_<stem2>.xlsx` with
one sheet "Differences", a header row, and one row per record. -/
def buildReport (stem1 stem2 : String) (differences : List DifferenceRecord) :
    Option DiffArtifact :=
  if differences.isEmpty then none
  else some
    { filename := "diff_" ++ stem1 ++ "_" ++ stem2 ++ ".xlsx"
      sheetTitle := "Differences"
      rows :=
        ["Sheet", "Cell", stem1 ++ " Value", stem2 ++ " Value"] ::
          differences.map fun d =>
            [d.worksheet_name, d.cell_address, d.value1, d.value2] }

/-! ### Concrete fixtures -/

/-- A literal numeric cell as openpyxl loads it (`data_type` "n"). -/
def litNum (n : Int) : Cell := ⟨CellValue.pyInt n, TYPE_NUMERIC⟩

/-- Base sheet of the simple-diff scenario: A1=5, B1=10. -/
def sheetC1Base : Worksheet :=
  ⟨"Sheet1", "visible", [((1, 1), litNum 5), ((1, 2), litNum 10)], [], [], []⟩

/-- Target sheet of the simple-diff scenario: A1=5, B1=99. -/
def sheetC1Target : Worksheet :=
  ⟨"Sheet1", "visible", [((1, 1), litNum 5), ((1, 2), litNum 99)], [], [], []⟩

/-- Base workbook of the simple-diff scenario. -/
def wbC1Base : Workbook := ⟨[sheetC1Base]⟩

/-- Target workbook of the simple-diff scenario. -/
def wbC1Target : Workbook := ⟨[sheetC1Target]⟩

/-! ### Masking lemmas -/

/-- A cell whose `data_type` is on the masked list normalizes to "". -/
lemma normalizedValue_masked (ws : Worksheet) (row col : Nat)
    (h : [TYPE_NULL, TYPE_ERROR, TYPE_FORMULA,
        TYPE_FORMULA_CACHE_STRING].contains (ws.cell row col).data_type = true) :
    normalizedValue ws row col = "" := by
  simp only [normalizedValue, h, if_true]

/-- No record is produced where both sides normalize equal. -/
lemma diffCell_eq_none_of_eq (ws1 ws2 : Worksheet) (row col : Nat)
    (h : normalizedValue ws1 row col = normalizedValue ws2 row col) :
    diffCell ws1 ws2 row col = none := by
  simp only [diffCell, h, ne_eq, not_true_eq_false, if_false]

/-- A sheet all of whose populated cells are numeric-tagged serves only
numeric-tagged cells (the default empty cell is "n"-tagged too). -/
lemma cell_data_type_numeric (ws : Worksheet)
    (h : ∀ e ∈ ws.cells, e.2.data_type = TYPE_NUMERIC) (row col : Nat) :
    (ws.cell row col).data_type = TYPE_NUMERIC := by
  unfold Worksheet.cell
  cases hf : ws.cells.find? (fun e => decide (e.1 = (row, col))) with
  | none => rfl
  | some e => exact h e (List.mem_of_find?_eq_some hf)

/-- An empty-string text cell normalizes to "" as well. -/
lemma normalizedValue_blank_text (ws : Worksheet) (row col : Nat)
    (h : ws.cell row col = ⟨CellValue.pyStr "", TYPE_STRING⟩) :
    normalizedValue ws row col = "" := by
  simp only [normalizedValue, h, strValue]
  cases is_cell_hidden ws row col <;> simp [TYPE_STRING, TYPE_NULL, TYPE_ERROR,
    TYPE_FORMULA, TYPE_FORMULA_CACHE_STRING]

/-! ### Claim theorems -/

/-- C1: contrary to the spec scenario, comparing a base sheet "Sheet1"
with literal cells A1=5, B1=10 against a target with A1=5, B1=99
produces no DifferenceRecord at all: numeric literals carry openpyxl
`data_type` "n", which the code masks to "" because `TYPE_NULL` is the
same tag, so the expected record ("Sheet1", "B1", "10", "99") is never
emitted. -/
theorem c1_simple_diff_scenario :
    diffWorkbooks wbC1Base wbC1Target = [] ∧
    DifferenceRecord.mk "Sheet1" "B1" "10" "99" ∉ diffWorkbooks wbC1Base wbC1Target := by
  constructor
  · decide
  · decide

/-- C2: `TYPE_NULL` is the same tag "n" as the numeric type, so every
cell whose stored `data_type` is numeric normalizes to the empty string
even as a plain visible literal, and two sheets all of whose cells
(populated or defaulted) are numeric-tagged produce no
DifferenceRecords. -/
theorem c2_numeric_masked_as_null :
    TYPE_NULL = TYPE_NUMERIC ∧
    (∀ (ws : Worksheet) (row col : Nat),
      (ws.cell row col).data_type = TYPE_NUMERIC →
      normalizedValue ws row col = "") ∧
    (∀ ws1 ws2 : Worksheet,
      (∀ row col : Nat, (ws1.cell row col).data_type = TYPE_NUMERIC ∧
        (ws2.cell row col).data_type = TYPE_NUMERIC) →
      diffSheets ws1 ws2 = []) := by
  refine ⟨rfl, ?_, ?_⟩
  · intro ws row col h
    apply normalizedValue_masked
    rw [h]
    rfl
  · intro ws1 ws2 h
    have hcell : ∀ row col : Nat, diffCell ws1 ws2 row col = none := by
      intro row col
      apply diffCell_eq_none_of_eq
      have h1 := normalizedValue_masked ws1 row col (by rw [(h row col).1]; rfl)
      have h2 := normalizedValue_masked ws2 row col (by rw [(h row col).2]; rfl)
      rw [h1, h2]
    simp only [diffSheets, List.flatMap_eq_nil_iff, List.filterMap_eq_nil_iff]
    intro row _ col _
    exact hcell row col

/-- C2 witness: at the simple-diff fixtures, cell (1,2) is numeric-tagged
on both sides, normalizes to "" on the base side, and the whole grid
diff is empty. -/
theorem c2_numeric_masked_as_null_witness :
    normalizedValue sheetC1Base 1 2 = "" ∧ diffSheets sheetC1Base sheetC1Target = [] :=
  ⟨c2_numeric_masked_as_null.2.1 sheetC1Base 1 2 (by decide),
   c2_numeric_masked_as_null.2.2 sheetC1Base sheetC1Target
    (fun row col =>
      ⟨cell_data_type_numeric sheetC1Base (by decide) row col,
       cell_data_type_numeric sheetC1Target (by decide) row col⟩)⟩

/-- C4: a cell whose `data_type` is TYPE_NULL, TYPE_ERROR, TYPE_FORMULA
or TYPE_FORMULA_CACHE_STRING normalizes to "" whatever its raw value,
on either side; in particular two formula-tagged cells (formula or
cached display text), even with different raw payloads, produce no
DifferenceRecord at their coordinate. -/
theorem c4_content_class_masking :
    (∀ (ws : Worksheet) (row col : Nat),
      (ws.cell row col).data_type = TYPE_NULL ∨
      (ws.cell row col).data_type = TYPE_ERROR ∨
      (ws.cell row col).data_type = TYPE_FORMULA ∨
      (ws.cell row col).data_type = TYPE_FORMULA_CACHE_STRING →
      normalizedValue ws row col = "") ∧
    (∀ (ws1 ws2 : Worksheet) (row col : Nat),
      ((ws1.cell row col).data_type = TYPE_FORMULA ∨
        (ws1.cell row col).data_type = TYPE_FORMULA_CACHE_STRING) →
      ((ws2.cell row col).data_type = TYPE_FORMULA ∨
        (ws2.cell row col).data_type = TYPE_FORMULA_CACHE_STRING) →
      diffCell ws1 ws2 row col = none) := by
  have hmask : ∀ (ws : Worksheet) (row col : Nat),
      (ws.cell row col).data_type = TYPE_NULL ∨
      (ws.cell row col).data_type = TYPE_ERROR ∨
      (ws.cell row col).data_type = TYPE_FORMULA ∨
      (ws.cell row col).data_type = TYPE_FORMULA_CACHE_STRING →
      normalizedValue ws row col = "" := by
    intro ws row col h
    apply normalizedValue_masked
    rcases h with h | h | h | h <;> rw [h] <;> rfl
  refine ⟨hmask, ?_⟩
  intro ws1 ws2 row col h1 h2
  apply diffCell_eq_none_of_eq
  rw [hmask ws1 row col (Or.inr (Or.inr h1)),
    hmask ws2 row col (Or.inr (Or.inr h2))]

/-- Sheet holding one formula cell with cached-display raw text "2". -/
def sheetFormulaA : Worksheet :=
  ⟨"Sheet1", "visible", [((1, 1), ⟨CellValue.pyStr "2", TYPE_FORMULA⟩)], [], [], []⟩

/-- Sheet holding one formula cell with cached-display raw text "3". -/
def sheetFormulaB : Worksheet :=
  ⟨"Sheet1", "visible", [((1, 1), ⟨CellValue.pyStr "3", TYPE_FORMULA⟩)], [], [], []⟩

/-- C4 witness: a formula cell normalizes to "" and a pair of formula
cells with differing payloads "2"/"3" yields no record at A1. -/
theorem c4_content_class_masking_witness :
    normalizedValue sheetFormulaA 1 1 = "" ∧
    diffCell sheetFormulaA sheetFormulaB 1 1 = none :=
  ⟨c4_content_class_masking.1 sheetFormulaA 1 1 (Or.inr (Or.inr (Or.inl (by decide)))),
   c4_content_class_masking.2 sheetFormulaA sheetFormulaB 1 1
    (Or.inl (by decide)) (Or.inl (by decide))⟩

/-- C10: a coordinate holding an empty-string text cell on one side and
an absent (defaulted) cell on the other — in either arrangement, or
blank/blank, absent/absent — produces no DifferenceRecord: both sides
normalize to "". -/
theorem c10_blank_text_vs_absent (ws1 ws2 : Worksheet) (row col : Nat)
    (h1 : ws1.cell row col = ⟨CellValue.pyStr "", TYPE_STRING⟩ ∨
      ws1.cell row col = EMPTY_CELL)
    (h2 : ws2.cell row col = ⟨CellValue.pyStr "", TYPE_STRING⟩ ∨
      ws2.cell row col = EMPTY_CELL) :
    diffCell ws1 ws2 row col = none := by
  have norm : ∀ (ws : Worksheet),
      ws.cell row col = ⟨CellValue.pyStr "", TYPE_STRING⟩ ∨
      ws.cell row col = EMPTY_CELL →
      normalizedValue ws row col = "" := by
    intro ws h
    rcases h with h | h
    · exact normalizedValue_blank_text ws row col h
    · apply normalizedValue_masked
      rw [h]
      rfl
  exact diffCell_eq_none_of_eq ws1 ws2 row col ((norm ws1 h1).trans (norm ws2 h2).symm)

/-- Sheet holding one empty-string text cell at A1. -/
def sheetBlankText : Worksheet :=
  ⟨"Sheet1", "visible", [((1, 1), ⟨CellValue.pyStr "", TYPE_STRING⟩)], [], [], []⟩

/-- Sheet with no populated cells at all. -/
def sheetAbsent : Worksheet := ⟨"Sheet1", "visible", [], [], [], []⟩

/-- C10 witness: empty-string text at A1 versus an unpopulated A1 emits
no record. -/
theorem c10_blank_text_vs_absent_witness :
    diffCell sheetBlankText sheetAbsent 1 1 = none :=
  c10_blank_text_vs_absent sheetBlankText sheetAbsent 1 1
    (Or.inl (by decide)) (Or.inr (by decide))

/-- C3: when some merged range contains the coordinate, the first such
range in declared order alone decides the result: hidden iff some
coordinate of that range lies on a hidden row or hidden column; when no
merged range contains it, the result is false even if the coordinate's
own row or column is flagged hidden. -/
theorem c3_is_cell_hidden_first_range (ws : Worksheet) (row col : Nat) :
    (∀ mr : CellRange,
      ws.merged_ranges.find? (fun r => r.containsCoord row col) = some mr →
      (is_cell_hidden ws row col = true ↔
        ∃ rc ∈ mr.coords, rc.1 ∈ ws.hidden_rows ∨ rc.2 ∈ ws.hidden_cols)) ∧
    ((∀ mr ∈ ws.merged_ranges, mr.containsCoord row col = false) →
      is_cell_hidden ws row col = false) := by
  constructor
  · intro mr hmr
    unfold is_cell_hidden
    rw [hmr]
    simp only [List.any_eq_true, Bool.or_eq_true,
      List.contains_iff_exists_mem_beq, beq_iff_eq]
    constructor
    · rintro ⟨rc, hrc, h | h⟩
      · obtain ⟨x, hx, rfl⟩ := h
        exact ⟨rc, hrc, Or.inr hx⟩
      · obtain ⟨x, hx, rfl⟩ := h
        exact ⟨rc, hrc, Or.inl hx⟩
    · rintro ⟨rc, hrc, h | h⟩
      · exact ⟨rc, hrc, Or.inr ⟨rc.1, h, rfl⟩⟩
      · exact ⟨rc, hrc, Or.inl ⟨rc.2, h, rfl⟩⟩
  · intro hnone
    unfold is_cell_hidden
    rw [List.find?_eq_none.mpr (fun mr hmr => by simp [hnone mr hmr])]

/-- Sheet with A1:A3 merged and row 2 hidden (no populated cells). -/
def sheetMergedHidden : Worksheet :=
  ⟨"Sheet1", "visible", [], [⟨1, 1, 3, 1⟩], [2], []⟩

/-- Sheet with row 1 and column 1 hidden but no merged range. -/
def sheetPlainHidden : Worksheet :=
  ⟨"Sheet1", "visible", [], [], [1], [1]⟩

/-- C3 witness: A1 of the merged sheet is hidden (row 2 of its range is
hidden); A1 of the merge-free sheet is not, despite its hidden row and
column. -/
theorem c3_is_cell_hidden_first_range_witness :
    is_cell_hidden sheetMergedHidden 1 1 = true ∧
    is_cell_hidden sheetPlainHidden 1 1 = false :=
  ⟨((c3_is_cell_hidden_first_range sheetMergedHidden 1 1).1 ⟨1, 1, 3, 1⟩
      (by decide)).mpr ⟨(2, 1), by decide, Or.inl (by decide)⟩,
   (c3_is_cell_hidden_first_range sheetPlainHidden 1 1).2 (by decide)⟩

/-- Modelled from the spec's Sheet Matcher contract, for comparison with
the code: the ordered matched sheet pairs — base order, names present on
both sides, neither side hidden; everything else silently dropped. -/
def spec_eligible_pairs (wb1 wb2 : Workbook) : List (Worksheet × Worksheet) :=
  wb1.sheets.filterMap fun ws1 =>
    match wb2.sheets.find? (fun ws => ws.title == ws1.title) with
    | some ws2 =>
        if is_worksheet_hidden ws1 = false ∧ is_worksheet_hidden ws2 = false then
          some (ws1, ws2)
        else none
    | none => none

/-- C5: the comparison's records are exactly the grid diffs of the
eligible sheet pairs — present in both workbooks, hidden in neither —
taken in the base workbook's sheet order; ineligible sheets contribute
nothing and raise no error. -/
theorem c5_sheet_eligibility (wb1 wb2 : Workbook) :
    diffWorkbooks wb1 wb2 =
      (spec_eligible_pairs wb1 wb2).flatMap (fun p => diffSheets p.1 p.2) := by
  obtain ⟨sheets⟩ := wb1
  induction sheets with
  | nil => rfl
  | cons ws1 rest ih =>
      simp only [diffWorkbooks, spec_eligible_pairs, List.flatMap_cons,
        List.filterMap_cons] at ih ⊢
      cases hf : wb2.sheets.find? (fun ws => ws.title == ws1.title) with
      | none =>
          have hm : ws1.title ∉ Workbook.sheetnames wb2 := by
            intro hx
            obtain ⟨ws, hws, hteq⟩ := List.mem_map.mp hx
            have hne := List.find?_eq_none.mp hf ws hws
            rw [beq_iff_eq] at hne
            exact hne hteq
          simpa [hf, hm] using ih
      | some ws2 =>
          have hmem := List.mem_of_find?_eq_some hf
          have htitle := List.find?_some hf
          rw [beq_iff_eq] at htitle
          have hm : ws1.title ∈ Workbook.sheetnames wb2 :=
            List.mem_map.mpr ⟨ws2, hmem, htitle⟩
          cases h1 : is_worksheet_hidden ws1 with
          | true => simpa [hf, hm, h1] using ih
          | false =>
              cases h2 : is_worksheet_hidden ws2 with
              | true => simpa [hf, hm, h1, h2] using ih
              | false => simpa [hf, hm, h1, h2] using ih

/-- Seed of a `foldl max` is a lower bound of the result. -/
lemma init_le_foldl_max {α : Type} (f : α → Nat) :
    ∀ (l : List α) (a : Nat), a ≤ l.foldl (fun acc e => max acc (f e)) a
  | [], _ => Nat.le_refl _
  | x :: xs, a =>
      Nat.le_trans (Nat.le_max_left a (f x))
        (init_le_foldl_max f xs (max a (f x)))

/-- Every listed element is bounded by the `foldl max` of the list. -/
lemma mem_le_foldl_max {α : Type} (f : α → Nat) (l : List α) :
    ∀ (a : Nat) (x : α), x ∈ l →
      f x ≤ l.foldl (fun acc e => max acc (f e)) a := by
  induction l with
  | nil => intro a x hx; cases hx
  | cons y ys ih =>
      intro a x hx
      rcases List.mem_cons.mp hx with rfl | hx
      · exact Nat.le_trans (Nat.le_max_right a (f x))
          (init_le_foldl_max f ys (max a (f x)))
      · exact ih (max a (f y)) x hx

/-- A coordinate beyond a sheet's populated bound yields the default
empty cell. -/
lemma cell_default_beyond (ws : Worksheet) (row col : Nat)
    (h : ws.max_row < row ∨ ws.max_column < col) :
    ws.cell row col = EMPTY_CELL := by
  unfold Worksheet.cell
  have hnone : ws.cells.find? (fun e => decide (e.1 = (row, col))) = none := by
    rw [List.find?_eq_none]
    intro e he
    simp only [decide_eq_true_eq]
    intro heq
    rcases h with hr | hc
    · have hle : e.1.1 ≤ ws.max_row :=
        mem_le_foldl_max (fun e => e.1.1) ws.cells 1 e he
      rw [heq] at hle
      exact Nat.lt_irrefl _ (Nat.lt_of_lt_of_le hr hle)
    · have hle : e.1.2 ≤ ws.max_column :=
        mem_le_foldl_max (fun e => e.1.2) ws.cells 1 e he
      rw [heq] at hle
      exact Nat.lt_irrefl _ (Nat.lt_of_lt_of_le hc hle)
  rw [hnone]

/-- Characterisation of the record the inner loop body emits. -/
lemma diffCell_eq_some_iff (ws1 ws2 : Worksheet) (row col : Nat)
    (rec : DifferenceRecord) :
    diffCell ws1 ws2 row col = some rec ↔
      normalizedValue ws1 row col ≠ normalizedValue ws2 row col ∧
      rec = ⟨ws1.title, get_column_letter col ++ toString row,
        normalizedValue ws1 row col, normalizedValue ws2 row col⟩ := by
  simp only [diffCell]
  by_cases hne : normalizedValue ws1 row col = normalizedValue ws2 row col
  · rw [if_neg (not_not_intro hne)]
    exact Iff.intro (fun h => Option.noConfusion h) (fun h => absurd hne h.1)
  · rw [if_pos hne]
    exact ⟨fun h => ⟨hne, (Option.some_inj.mp h).symm⟩, fun h => by rw [h.2]⟩

/-- C6: a record is in the grid diff exactly when it arises from some
coordinate with row in 1..max(max_row), column in 1..max(max_column)
where the normalized values differ, carrying sheet1's title, the
column-letter/row address and the two normalized values; and any
coordinate beyond a sheet's populated bound serves that sheet's default
empty cell. -/
theorem c6_grid_walk (ws1 ws2 : Worksheet) :
    (∀ rec : DifferenceRecord,
      rec ∈ diffSheets ws1 ws2 ↔
      ∃ row col : Nat,
        1 ≤ row ∧ row ≤ max ws1.max_row ws2.max_row ∧
        1 ≤ col ∧ col ≤ max ws1.max_column ws2.max_column ∧
        normalizedValue ws1 row col ≠ normalizedValue ws2 row col ∧
        rec = ⟨ws1.title, get_column_letter col ++ toString row,
          normalizedValue ws1 row col, normalizedValue ws2 row col⟩) ∧
    (∀ row col : Nat, ws1.max_row < row ∨ ws1.max_column < col →
      ws1.cell row col = EMPTY_CELL) := by
  constructor
  · intro rec
    unfold diffSheets
    simp only [List.mem_flatMap, List.mem_filterMap, List.mem_range'_1]
    constructor
    · rintro ⟨row, ⟨hr1, hr2⟩, col, ⟨hc1, hc2⟩, hcell⟩
      obtain ⟨hne, hrec⟩ := (diffCell_eq_some_iff ws1 ws2 row col rec).mp hcell
      exact ⟨row, col, hr1, by omega, hc1, by omega, hne, hrec⟩
    · rintro ⟨row, col, hr1, hr2, hc1, hc2, hne, hrec⟩
      exact ⟨row, ⟨hr1, by omega⟩, col, ⟨hc1, by omega⟩,
        (diffCell_eq_some_iff ws1 ws2 row col rec).mpr ⟨hne, hrec⟩⟩
  · intro row col h
    exact cell_default_beyond ws1 row col h

/-- Sheet with text "x" at A1. -/
def sheetStrX : Worksheet :=
  ⟨"Sheet1", "visible", [((1, 1), ⟨CellValue.pyStr "x", TYPE_STRING⟩)], [], [], []⟩

/-- Sheet with text "y" at A1. -/
def sheetStrY : Worksheet :=
  ⟨"Sheet1", "visible", [((1, 1), ⟨CellValue.pyStr "y", TYPE_STRING⟩)], [], [], []⟩

/-- C6 witness: the x/y pair at A1 yields the record
("Sheet1", "A1", "x", "y"), and coordinate (5, 9) of the one-cell sheet
defaults to the empty cell. -/
theorem c6_grid_walk_witness :
    DifferenceRecord.mk "Sheet1" "A1" "x" "y" ∈ diffSheets sheetStrX sheetStrY ∧
    sheetStrX.cell 5 9 = EMPTY_CELL :=
  ⟨((c6_grid_walk sheetStrX sheetStrY).1 (DifferenceRecord.mk "Sheet1" "A1" "x" "y")).mpr
      ⟨1, 1, by decide, by decide, by decide, by decide, by decide, by decide⟩,
   (c6_grid_walk sheetStrX sheetStrY).2 5 9 (Or.inl (by decide))⟩

/-- Strict lexicographic order on (row, column). -/
def lexRC (a b : Nat × Nat) : Prop :=
  a.1 < b.1 ∨ (a.1 = b.1 ∧ a.2 < b.2)

/-- Strict lexicographic order on (sheet position, row, column). -/
def lexSRC (a b : Nat × Nat × Nat) : Prop :=
  a.1 < b.1 ∨ (a.1 = b.1 ∧ lexRC a.2 b.2)

/-- The grid walk of `diffSheets`, annotated with the (row, column)
each record was emitted from. -/
def diffSheetsAnnotated (ws1 ws2 : Worksheet) :
    List ((Nat × Nat) × DifferenceRecord) :=
  (List.range' 1 (max ws1.max_row ws2.max_row)).flatMap fun row =>
    (List.range' 1 (max ws1.max_column ws2.max_column)).filterMap fun col =>
      (diffCell ws1 ws2 row col).map fun rec => ((row, col), rec)

/-- One base sheet's annotated contribution to the comparison (the body
of the sheet loop, with coordinates kept). -/
def sheetContribution (wb2 : Workbook) (ws1 : Worksheet) :
    List ((Nat × Nat) × DifferenceRecord) :=
  if (Workbook.sheetnames wb2).contains ws1.title then
    match wb2.sheets.find? (fun ws => ws.title == ws1.title) with
    | some ws2 =>
        if is_worksheet_hidden ws1 then []
        else if is_worksheet_hidden ws2 then []
        else diffSheetsAnnotated ws1 ws2
    | none => []
  else []

/-- The sheet loop with each record annotated by the position of its
base sheet and its coordinate. -/
def annotateSheets (wb2 : Workbook) :
    Nat → List Worksheet → List ((Nat × Nat × Nat) × DifferenceRecord)
  | _, [] => []
  | i, ws1 :: rest =>
      ((sheetContribution wb2 ws1).map fun q => ((i, q.1), q.2)) ++
        annotateSheets wb2 (i + 1) rest

/-- The whole comparison, annotated. -/
def diffWorkbooksAnnotated (wb1 wb2 : Workbook) :
    List ((Nat × Nat × Nat) × DifferenceRecord) :=
  annotateSheets wb2 0 wb1.sheets

/-- Dropping the annotations of one sheet's walk recovers `diffSheets`. -/
lemma diffSheetsAnnotated_proj (ws1 ws2 : Worksheet) :
    (diffSheetsAnnotated ws1 ws2).map (fun q => q.2) = diffSheets ws1 ws2 := by
  unfold diffSheetsAnnotated diffSheets
  rw [List.map_flatMap]
  apply congrArg
  funext row
  rw [List.map_filterMap]
  congr 1
  funext col
  cases diffCell ws1 ws2 row col <;> rfl

/-- Dropping the annotations of the sheet loop recovers `diffWorkbooks`. -/
lemma annotateSheets_proj (wb2 : Workbook) (l : List Worksheet) :
    ∀ i : Nat, (annotateSheets wb2 i l).map (fun q => q.2) =
      diffWorkbooks ⟨l⟩ wb2 := by
  induction l with
  | nil => intro i; rfl
  | cons ws1 rest ih =>
      intro i
      simp only [annotateSheets, diffWorkbooks, List.flatMap_cons,
        List.map_append, List.map_map]
      congr 1
      · show (sheetContribution wb2 ws1).map (fun q => q.2) = _
        unfold sheetContribution
        cases hcont : (Workbook.sheetnames wb2).contains ws1.title with
        | false => simp
        | true =>
            simp only [if_true]
            cases hf : wb2.sheets.find? (fun ws => ws.title == ws1.title) with
            | none => simp
            | some ws2 =>
                cases h1 : is_worksheet_hidden ws1 with
                | true => simp [h1]
                | false =>
                    cases h2 : is_worksheet_hidden ws2 with
                    | true => simp [h1, h2]
                    | false => simp [h1, h2, diffSheetsAnnotated_proj]
      · exact ih (i + 1)

/-- Every coordinate key produced by one row of the annotated walk
carries that row number. -/
lemma mem_inner_row_fst (ws1 ws2 : Worksheet) (row C : Nat) :
    ∀ q ∈ (List.range' 1 C).filterMap
      (fun col => (diffCell ws1 ws2 row col).map fun rec => ((row, col), rec)),
      q.1.1 = row := by
  intro q hq
  obtain ⟨col, _, hcol⟩ := List.mem_filterMap.mp hq
  obtain ⟨rec, _, rfl⟩ := Option.map_eq_some'.mp hcol
  rfl

/-- Keys of one sheet's annotated walk ascend lexicographically. -/
lemma diffSheetsAnnotated_pairwise (ws1 ws2 : Worksheet) :
    (diffSheetsAnnotated ws1 ws2).Pairwise (fun a b => lexRC a.1 b.1) := by
  unfold diffSheetsAnnotated
  rw [List.pairwise_flatMap]
  constructor
  · intro row _
    rw [List.pairwise_filterMap]
    apply List.Pairwise.imp ?_ (List.pairwise_lt_range' 1 _)
    intro col col' hlt b hb b' hb'
    obtain ⟨rec, _, rfl⟩ := Option.map_eq_some'.mp hb
    obtain ⟨rec', _, rfl⟩ := Option.map_eq_some'.mp hb'
    exact Or.inr ⟨rfl, hlt⟩
  · apply List.Pairwise.imp ?_ (List.pairwise_lt_range' 1 _)
    intro row row' hlt x hx y hy
    have hxr := mem_inner_row_fst ws1 ws2 row _ x hx
    have hyr := mem_inner_row_fst ws1 ws2 row' _ y hy
    exact Or.inl (by rw [hxr, hyr]; exact hlt)

/-- One sheet's contribution also has ascending keys (it is either
empty or an annotated walk). -/
lemma sheetContribution_pairwise (wb2 : Workbook) (ws1 : Worksheet) :
    (sheetContribution wb2 ws1).Pairwise (fun a b => lexRC a.1 b.1) := by
  unfold sheetContribution
  split
  · split
    · split
      · exact List.Pairwise.nil
      · split
        · exact List.Pairwise.nil
        · exact diffSheetsAnnotated_pairwise _ _
    · exact List.Pairwise.nil
  · exact List.Pairwise.nil

/-- Sheet positions never decrease along the annotated sheet loop. -/
lemma annotateSheets_key_ge (wb2 : Workbook) (l : List Worksheet) :
    ∀ (i : Nat) (q : (Nat × Nat × Nat) × DifferenceRecord),
      q ∈ annotateSheets wb2 i l → i ≤ q.1.1 := by
  induction l with
  | nil => intro i q hq; cases hq
  | cons ws1 rest ih =>
      intro i q hq
      rcases List.mem_append.mp hq with hq | hq
      · obtain ⟨p, _, rfl⟩ := List.mem_map.mp hq
        exact Nat.le_refl i
      · exact Nat.le_trans (Nat.le_succ i) (ih (i + 1) q hq)

/-- Keys of the annotated sheet loop ascend lexicographically on
(sheet position, row, column). -/
lemma annotateSheets_pairwise (wb2 : Workbook) (l : List Worksheet) :
    ∀ i : Nat, (annotateSheets wb2 i l).Pairwise (fun a b => lexSRC a.1 b.1) := by
  induction l with
  | nil => intro i; exact List.Pairwise.nil
  | cons ws1 rest ih =>
      intro i
      apply List.pairwise_append.mpr
      refine ⟨?_, ih (i + 1), ?_⟩
      · rw [List.pairwise_map]
        apply List.Pairwise.imp ?_ (sheetContribution_pairwise wb2 ws1)
        intro p q hpq
        exact Or.inr ⟨rfl, hpq⟩
      · intro x hx y hy
        obtain ⟨p, _, rfl⟩ := List.mem_map.mp hx
        have hge := annotateSheets_key_ge wb2 rest (i + 1) y hy
        exact Or.inl (Nat.lt_of_lt_of_le (Nat.lt_succ_self i) hge)

/-- C7: the comparison's records, annotated with (base-sheet position,
row, column), project back to the comparison and carry strictly
lexicographically ascending keys: per sheet ascending (row, column),
across sheets the base workbook's declared order. -/
theorem c7_report_ordering (wb1 wb2 : Workbook) :
    (diffWorkbooksAnnotated wb1 wb2).map (fun q => q.2) = diffWorkbooks wb1 wb2 ∧
    (diffWorkbooksAnnotated wb1 wb2).Pairwise (fun a b => lexSRC a.1 b.1) :=
  ⟨annotateSheets_proj wb2 wb1.sheets 0, annotateSheets_pairwise wb2 wb1.sheets 0⟩

/-- C8: with zero differences no artifact is produced; otherwise the
artifact is named diff_<base-stem>_<target-stem>.xlsx, its single sheet
is titled "Differences", row 1 is the header
(Sheet, Cell, <base-stem> Value, <target-stem> Value), and the i-th
record's four fields occupy row i+1, in produced order. -/
theorem c8_report_artifact (stem1 stem2 : String)
    (differences : List DifferenceRecord) :
    (differences = [] → buildReport stem1 stem2 differences = none) ∧
    (differences ≠ [] → ∃ a : DiffArtifact,
      buildReport stem1 stem2 differences = some a ∧
      a.filename = "diff_" ++ stem1 ++ "_" ++ stem2 ++ ".xlsx" ∧
      a.sheetTitle = "Differences" ∧
      a.rows.length = differences.length + 1 ∧
      a.rows[0]? = some ["Sheet", "Cell", stem1 ++ " Value", stem2 ++ " Value"] ∧
      ∀ i : Nat, i < differences.length →
        a.rows[i + 1]? = (differences[i]?).map fun d =>
          [d.worksheet_name, d.cell_address, d.value1, d.value2]) := by
  constructor
  · intro h
    simp [buildReport, h]
  · intro h
    have hne : differences.isEmpty = false := by
      cases differences with
      | nil => exact absurd rfl h
      | cons d ds => rfl
    refine ⟨⟨"diff_" ++ stem1 ++ "_" ++ stem2 ++ ".xlsx", "Differences",
      ["Sheet", "Cell", stem1 ++ " Value", stem2 ++ " Value"] ::
        differences.map fun d =>
          [d.worksheet_name, d.cell_address, d.value1, d.value2]⟩,
      ?_, rfl, rfl, ?_, ?_, ?_⟩
    · simp [buildReport, hne]
    · simp
    · simp
    · intro i _
      simp [List.getElem?_cons_succ, List.getElem?_map]

/-- C8 witness: empty input saves nothing; a one-record input saves the
expected table. -/
theorem c8_report_artifact_witness :
    buildReport "base" "target" [] = none ∧
    buildReport "base" "target" [⟨"Sheet1", "A1", "x", "y"⟩] ≠ none := by
  refine ⟨(c8_report_artifact "base" "target" []).1 rfl, ?_⟩
  obtain ⟨a, ha, -⟩ :=
    (c8_report_artifact "base" "target" [⟨"Sheet1", "A1", "x", "y"⟩]).2 (by decide)
  simp [ha]

/-- C9: the record sequence of a comparison is a pure function of the
two workbooks: a run's earlier targets leave it untouched, and comparing
the same target twice yields two identical sequences. -/
theorem c9_comparison_deterministic (wb1 wb2 : Workbook)
    (prior : List Workbook) :
    runTargets wb1 (prior ++ [wb2]) =
      runTargets wb1 prior ++ [diffWorkbooks wb1 wb2] ∧
    runTargets wb1 [wb2, wb2] =
      [diffWorkbooks wb1 wb2, diffWorkbooks wb1 wb2] :=
  ⟨by simp [runTargets], rfl⟩

end Diffxl

